import Mathlib

/-!
Verification of the emotion-detection hook (src/src/components/emotion-detection/
useEmotionDetection.tsx).

Shallow embedding conventions:
- Numbers produced by Math.random() are modelled as rationals r with 0 ≤ r < 1,
  passed in as explicit parameters at each call site that draws one.
- Metric levels are integers (the source computes base + Math.floor(random * width)).
- Date.now() values are natural-number timestamps passed in as parameters.
- React useState fields and useRef fields are both fields of one state record;
  setX(v) is a functional record update applied in program order.
- The setInterval / setTimeout handles are modelled as follows: the tick-interval
  handle is an opaque Nat id; the popup setTimeout handle is modelled by the
  absolute time at which the scheduled dismissal callback fires (clearTimeout
  corresponds to replacing or discarding that deadline, so a cleared callback
  never runs). firePopupTimeout below is the runtime firing of that callback.
- AbortController instances are opaque Nat ids; calling abort() on one appends
  its id to the abortedTokens log, so that aborting (or not) is observable.
- toast calls are collected in an output list of Toast values.
- Async functions are modelled as atomic state transformers whose awaited
  results (getUserMedia grant, classifier result) are parameters.
-/

/-- The emotion label "happy" (string literals are bound to named constants). -/
def emoHappy : String := "happy"

/-- The emotion label "focused". -/
def emoFocused : String := "focused"

/-- The emotion label "neutral". -/
def emoNeutral : String := "neutral"

/-- The emotion label "confused". -/
def emoConfused : String := "confused"

/-- The emotion label "sad". -/
def emoSad : String := "sad"

/-- The emotion label "stressed". -/
def emoStressed : String := "stressed"

/-- The emotion label "bored". -/
def emoBored : String := "bored"

/-- `dummyEmotions` of the catch block in processVideoFrame (line 162): six labels. -/
def fallbackEmotions : List String :=
  [ emoHappy, emoFocused, emoNeutral, emoConfused, emoSad, emoStressed ]

/-- `dummyEmotions` of forceEmotionUpdate (line 184): seven labels. -/
def forceEmotions : List String :=
  [ emoHappy, emoFocused, emoNeutral, emoConfused, emoSad, emoStressed, emoBored ]

/-- One entry of the emotionHistory array: the record
`\x7bemotion, timestamp, score\x7d` built at lines 142-146, 166-170, 189-193. -/
structure EmotionEvent where
  emotion : String
  timestamp : Nat
  score : ℚ
deriving DecidableEq

/-- Kinds of toast notifications used by the hook. -/
inductive ToastKind where
  | success
  | error
  | information
deriving DecidableEq

/-- A user-visible toast notification. -/
structure Toast where
  kind : ToastKind
  message : String
deriving DecidableEq

def toastCameraDenied : String :=
  "Camera access denied. Please enable camera permissions and try again."

def toastMicDenied : String :=
  "Microphone access denied. Please enable microphone permissions and try again."

def toastAnalysisError : String :=
  "Error analyzing emotion. Using simulated data."

def toastDetectedPrefixMsg : String :=
  "Emotion detected: "

def toastStarted : String :=
  "Emotion detection started"

def toastStopped : String :=
  "Emotion detection stopped"

def toastBothRequired : String :=
  "Both camera and microphone access are required for emotion detection"

/-- The full state of the hook: every useState field and every useRef field of
useEmotionDetection, in declaration order (lines 7-29).  videoSrcObject models
`videoRef.current.srcObject`; mediaStreamRef / abortControllerRef hold opaque
ids; popupTimeoutRef holds the absolute firing time of the scheduled dismissal;
abortedTokens logs every AbortController id on which abort() was called. -/
structure HookState where
  cameraPermission : Option Bool
  micPermission : Option Bool
  isAnalyzing : Bool
  currentEmotion : Option String
  emotionHistory : List EmotionEvent
  showInfo : Bool
  stressLevel : Int
  engagementLevel : Int
  focusLevel : Int
  lastDetectionTime : Nat
  showEmotionPopup : Bool
  popupEmotion : Option String
  timerCount : Int
  isProcessing : Bool
  timerIntervalRef : Option Nat
  videoSrcObject : Option Nat
  mediaStreamRef : Option Nat
  popupTimeoutRef : Option Nat
  lastApiCallTimeRef : Nat
  abortControllerRef : Option Nat
  abortedTokens : List Nat
deriving DecidableEq

/-- The initial state of the hook, from the useState initialisers (lines 7-29). -/
def initialState : HookState where
  cameraPermission := none
  micPermission := none
  isAnalyzing := false
  currentEmotion := none
  emotionHistory := []
  showInfo := false
  stressLevel := 0
  engagementLevel := 0
  focusLevel := 0
  lastDetectionTime := 0
  showEmotionPopup := false
  popupEmotion := none
  timerCount := 3
  isProcessing := false
  timerIntervalRef := none
  videoSrcObject := none
  mediaStreamRef := none
  popupTimeoutRef := none
  lastApiCallTimeRef := 0
  abortControllerRef := none
  abortedTokens := []

/-- Presence of the DOM collaborators: whether videoRef.current and
canvasRef.current are non-null, and whether canvas.getContext succeeds. -/
structure DetectEnv where
  hasVideo : Bool
  hasCanvas : Bool
  ctxOk : Bool
deriving DecidableEq

/-- Result of the external classifier `detectEmotionWithFacePlusPlus`. -/
structure EmotionResult where
  emotion : String
  confidence : ℚ
deriving DecidableEq

/-- The history update shared by all three append sites (lines 142-146, 166-170,
189-193): `[...prev, item].slice(-12)`.  JavaScript slice(-12) keeps the last
12 elements (all of them when there are fewer), i.e. drops length - 12 from
the front (truncated subtraction). -/
def appendEmotion (prev : List EmotionEvent) (item : EmotionEvent) : List EmotionEvent :=
  ((prev ++ [ item ]).drop ((prev ++ [ item ]).length - 12))

/-- The stress-level branch chain of updateMetricsBasedOnEmotion (lines 236-250),
with r the Math.random() draw of the branch taken. -/
def stressFor (emotion : String) (r : ℚ) : Int :=
  if emotion = emoStressed then 75 + ⌊r * 25⌋
  else if emotion = emoConfused then 50 + ⌊r * 25⌋
  else if emotion = emoSad then 60 + ⌊r * 20⌋
  else if emotion = emoNeutral then 20 + ⌊r * 20⌋
  else if emotion = emoFocused then 10 + ⌊r * 15⌋
  else if emotion = emoHappy then 5 + ⌊r * 10⌋
  else 15 + ⌊r * 20⌋

/-- The engagement-level branch chain (lines 253-263). -/
def engagementFor (emotion : String) (r : ℚ) : Int :=
  if emotion = emoFocused ∨ emotion = emoHappy then 80 + ⌊r * 20⌋
  else if emotion = emoNeutral then 50 + ⌊r * 30⌋
  else if emotion = emoSad then 20 + ⌊r * 30⌋
  else if emotion = emoStressed then 15 + ⌊r * 25⌋
  else 30 + ⌊r * 40⌋

/-- The focus-level branch chain (lines 266-278). -/
def focusFor (emotion : String) (r : ℚ) : Int :=
  if emotion = emoFocused then 85 + ⌊r * 15⌋
  else if emotion = emoHappy then 70 + ⌊r * 20⌋
  else if emotion = emoNeutral then 50 + ⌊r * 20⌋
  else if emotion = emoStressed then 15 + ⌊r * 20⌋
  else if emotion = emoSad then 20 + ⌊r * 20⌋
  else 30 + ⌊r * 30⌋

/-- updateMetricsBasedOnEmotion (lines 234-279): three independent setState
calls, one Math.random() draw each (r1 for stress, r2 for engagement, r3 for
focus). -/
def updateMetricsBasedOnEmotion (emotion : String) (r1 r2 r3 : ℚ) (s : HookState) : HookState :=
  { s with
    stressLevel := stressFor emotion r1
    engagementLevel := engagementFor emotion r2
    focusLevel := focusFor emotion r3 }

/-- showEmotionalSupportPopup (lines 217-231): clears any pending dismissal
(clearTimeout — the old deadline is discarded, so that callback never runs),
shows the popup with the given emotion, and schedules auto-hide at now + 8000. -/
def showEmotionalSupportPopup (emotion : String) (now : Nat) (s : HookState) : HookState :=
  { s with
    popupEmotion := some emotion
    showEmotionPopup := true
    popupTimeoutRef := some (now + 8000) }

/-- The runtime firing of the popup auto-hide callback scheduled at lines
227-230: at its scheduled time t, if the timeout is still pending (was not
cleared or superseded), hide the popup and null the handle. -/
def firePopupTimeout (s : HookState) (t : Nat) : HookState :=
  match s.popupTimeoutRef with
  | some d => if t = d then { s with showEmotionPopup := false, popupTimeoutRef := none } else s
  | none => s

/-- processVideoFrame (lines 96-177).  Parameters: `now` is Date.now() at entry
(line 100); `tEvent` is Date.now() when the awaited branch resumes and builds
the history entry (lines 144, 168); `apiResult` is the outcome of the awaited
`detectEmotionWithFacePlusPlus` call; `rfall` and `rscore` are the Math.random()
draws for the fallback emotion index and fallback score; `r1 r2 r3` are the
draws inside updateMetricsBasedOnEmotion; `ctrlId` is the fresh AbortController.
Date.now() minus lastApiCallTimeRef is computed over the integers as in
JavaScript. -/
def processVideoFrame (env : DetectEnv) (s : HookState) (now tEvent : Nat)
    (apiResult : Except Unit EmotionResult) (rfall rscore r1 r2 r3 : ℚ)
    (ctrlId : Nat) : HookState × List Toast :=
  if env.hasVideo = false ∨ env.hasCanvas = false ∨ s.isAnalyzing = false ∨ s.isProcessing = true then
    (s, [])
  else if (now : Int) - (s.lastApiCallTimeRef : Int) < 1000 then
    (s, [])
  else
    let sProc := { s with isProcessing := true }
    let sCtl := { sProc with
      abortedTokens := match sProc.abortControllerRef with
        | some t => sProc.abortedTokens ++ [ t ]
        | none => sProc.abortedTokens
      abortControllerRef := some ctrlId }
    if env.ctxOk = false then
      ({ sCtl with isProcessing := false, abortControllerRef := none }, [])
    else
      let sTimed := { sCtl with
        lastDetectionTime := now
        lastApiCallTimeRef := now
        timerCount := 3 }
      match apiResult with
      | Except.ok res =>
          let sEmo := { sTimed with
            currentEmotion := some res.emotion
            emotionHistory := appendEmotion sTimed.emotionHistory
              ⟨res.emotion, tEvent, res.confidence⟩ }
          let sMet := updateMetricsBasedOnEmotion res.emotion r1 r2 r3 sEmo
          let sPop := if res.emotion = emoStressed ∨ res.emotion = emoSad then
              showEmotionalSupportPopup res.emotion tEvent sMet
            else sMet
          ({ sPop with isProcessing := false, abortControllerRef := none },
           [ ⟨ToastKind.success, toastDetectedPrefixMsg ++ res.emotion⟩ ])
      | Except.error _ =>
          let emo := fallbackEmotions.getD (⌊rfall * 6⌋.toNat) emoNeutral
          let sEmo := { sTimed with
            currentEmotion := some emo
            emotionHistory := appendEmotion sTimed.emotionHistory
              ⟨emo, tEvent, 7 / 10 + rscore * (3 / 10)⟩ }
          let sMet := updateMetricsBasedOnEmotion emo r1 r2 r3 sEmo
          ({ sMet with isProcessing := false, abortControllerRef := none },
           [ ⟨ToastKind.error, toastAnalysisError⟩ ])

/-- forceEmotionUpdate (lines 180-199): picks a uniformly random label from the
seven-element list via Math.floor(Math.random() * 7), appends a history entry
with score 0.7 + Math.random() * 0.3, and recomputes the metrics. -/
def forceEmotionUpdate (s : HookState) (now : Nat) (remo rscore r1 r2 r3 : ℚ) : HookState :=
  if s.isAnalyzing = false then s
  else
    let emo := forceEmotions.getD (⌊remo * 7⌋.toNat) emoNeutral
    let sEmo := { s with
      currentEmotion := some emo
      emotionHistory := appendEmotion s.emotionHistory
        ⟨emo, now, 7 / 10 + rscore * (3 / 10)⟩ }
    updateMetricsBasedOnEmotion emo r1 r2 r3 sEmo

/-- updateTimer (lines 202-214): the per-second countdown.  The capture attempt
it launches at zero is asynchronous and is modelled as a separate
processVideoFrame / forceEmotionUpdate step. -/
def updateTimer (s : HookState) : HookState :=
  if s.timerCount ≤ 1 then { s with timerCount := 3 }
  else { s with timerCount := s.timerCount - 1 }

/-- requestCameraPermission (lines 32-77).  `granted` is the outcome of the
awaited getUserMedia call; `streamId` identifies the stream it returns. -/
def requestCameraPermission (env : DetectEnv) (s : HookState) (granted : Bool)
    (streamId : Nat) : HookState × List Toast × Bool :=
  let sClear := { s with mediaStreamRef := none }
  let sVid := if env.hasVideo then { sClear with videoSrcObject := none } else sClear
  if granted then
    ({ sVid with
        cameraPermission := some true
        mediaStreamRef := some streamId
        videoSrcObject := if env.hasVideo then some streamId else sVid.videoSrcObject },
     [], true)
  else
    ({ sVid with cameraPermission := some false },
     [ ⟨ToastKind.error, toastCameraDenied⟩ ], false)

/-- requestMicPermission (lines 80-93). -/
def requestMicPermission (s : HookState) (granted : Bool) : HookState × List Toast × Bool :=
  if granted then
    ({ s with micPermission := some true }, [], true)
  else
    ({ s with micPermission := some false },
     [ ⟨ToastKind.error, toastMicDenied⟩ ], false)

/-- JavaScript truthiness of the `currentEmotion` value (string | null): null
and the empty string are falsy (line 307 checks `!currentEmotion`). -/
def jsTruthy : Option String → Bool
  | none => false
  | some e => !e.isEmpty

/-- startAnalysis (lines 282-332).  `camGranted` / `micGranted` are the
getUserMedia outcomes; `streamId` the camera stream id; `intervalId` the
setInterval handle; `now` is Date.now() at the seed (line 311); `m1 m2 m3` the
metric draws of the neutral seed.  The one-shot setTimeout of lines 318-323
only schedules a later processVideoFrame step and leaves the state unchanged
here. -/
def startAnalysis (env : DetectEnv) (s : HookState) (camGranted micGranted : Bool)
    (now streamId intervalId : Nat) (m1 m2 m3 : ℚ) : HookState × List Toast :=
  let sClear := { s with mediaStreamRef := none }
  let sVid := if env.hasVideo then { sClear with videoSrcObject := none } else sClear
  let rc := requestCameraPermission env sVid camGranted streamId
  let rm := if rc.1.micPermission = some true then (rc.1, ([] : List Toast), true)
    else requestMicPermission rc.1 micGranted
  if rc.2.2 && rm.2.2 then
    let sOn := { rm.1 with isAnalyzing := true }
    let sSeed := if jsTruthy sOn.currentEmotion then sOn
      else
        updateMetricsBasedOnEmotion emoNeutral m1 m2 m3
          { sOn with
            currentEmotion := some emoNeutral
            emotionHistory := [ ⟨emoNeutral, now, 4 / 5⟩ ] }
    let sTim := if sSeed.timerIntervalRef = none then
        { sSeed with timerIntervalRef := some intervalId }
      else sSeed
    (sTim, rc.2.1 ++ rm.2.1 ++ [ ⟨ToastKind.success, toastStarted⟩ ])
  else
    (rm.1, rc.2.1 ++ rm.2.1 ++ [ ⟨ToastKind.error, toastBothRequired⟩ ])

/-- stopAnalysis (lines 335-365): clears the analyzing flag, the tick interval,
the media stream and the video display, aborts and nulls any in-flight
AbortController, and toasts a stop notification. -/
def stopAnalysis (env : DetectEnv) (s : HookState) : HookState × List Toast :=
  let sOff := { s with isAnalyzing := false }
  let sTim := { sOff with timerIntervalRef := none }
  let sStr := { sTim with mediaStreamRef := none }
  let sVid := if env.hasVideo then { sStr with videoSrcObject := none } else sStr
  let sAbt := match sVid.abortControllerRef with
    | some t => { sVid with abortedTokens := sVid.abortedTokens ++ [ t ], abortControllerRef := none }
    | none => sVid
  (sAbt, [ ⟨ToastKind.information, toastStopped⟩ ])

/-! ### Helper lemmas -/

/-- Appending one event to an already-truncated buffer gives the same result as
truncating after appending to the untruncated list. -/
theorem appendEmotion_drop (a : List EmotionEvent) (e : EmotionEvent) :
    appendEmotion (a.drop (a.length - 12)) e
      = (a ++ [ e ]).drop ((a ++ [ e ]).length - 12) := by
  unfold appendEmotion
  rcases le_or_lt a.length 12 with h | h
  · have h0 : a.length - 12 = 0 := Nat.sub_eq_zero_of_le h
    rw [h0, List.drop_zero]
  · have h1 : (a.drop (a.length - 12) ++ [ e ]).length - 12 = 1 := by
      simp only [List.length_append, List.length_drop, List.length_singleton]
      omega
    have h2 : (a ++ [ e ]).length - 12 = a.length - 11 := by
      simp only [List.length_append, List.length_singleton]
      omega
    rw [h1, h2]
    have h3 : (1 : Nat) ≤ (a.drop (a.length - 12)).length := by
      rw [List.length_drop]; omega
    have h4 : a.length - 11 ≤ a.length := by omega
    rw [List.drop_append_of_le_length h3, List.drop_append_of_le_length h4,
        List.drop_drop]
    have h5 : a.length - 12 + 1 = a.length - 11 := by omega
    rw [h5]

/-- Folding the history update over any event sequence, starting from a
truncated buffer, yields the truncation of the whole concatenation. -/
theorem foldl_appendEmotion (es : List EmotionEvent) :
    ∀ a : List EmotionEvent,
      List.foldl appendEmotion (a.drop (a.length - 12)) es
        = (a ++ es).drop ((a ++ es).length - 12) := by
  induction es with
  | nil => intro a; simp
  | cons e es ih =>
      intro a
      rw [List.foldl_cons, appendEmotion_drop, ih (a ++ [ e ])]
      simp

/-- Starting from the empty history, folding the history update over an event
sequence keeps exactly the last 12 events. -/
theorem foldl_appendEmotion_nil (es : List EmotionEvent) :
    List.foldl appendEmotion [] es = es.drop (es.length - 12) := by
  have h := foldl_appendEmotion es []
  simpa using h

/-- A floor of a random draw r in [0, 1) scaled by a positive width w lies in
[0, w - 1]. -/
theorem floorMulBand (r : ℚ) (w : ℕ) (hw : 0 < w) (h0 : 0 ≤ r) (h1 : r < 1) :
    0 ≤ ⌊r * (w : ℚ)⌋ ∧ ⌊r * (w : ℚ)⌋ ≤ (w : ℤ) - 1 := by
  have hwq : (0 : ℚ) ≤ (w : ℚ) := by positivity
  constructor
  · exact Int.floor_nonneg.mpr (mul_nonneg h0 hwq)
  · have hwq1 : (0 : ℚ) < (w : ℚ) := by exact_mod_cast hw
    have hlt : ⌊r * (w : ℚ)⌋ < (w : ℤ) := by
      rw [Int.floor_lt]
      push_cast
      have hm := mul_lt_mul_of_pos_right h1 hwq1
      linarith
    omega

/-- Every label the six-element fallback list can yield belongs to the
seven-element forced list. -/
theorem fallback_getD_mem_force (k : ℕ) :
    fallbackEmotions.getD k emoNeutral ∈ forceEmotions := by
  rcases le_or_lt fallbackEmotions.length k with h | h
  · rw [List.getD_eq_default _ _ h]
    decide
  · have h6 : k < 6 := by simpa [fallbackEmotions] using h
    interval_cases k <;> decide

/-- Every label the seven-element forced list can yield belongs to it. -/
theorem force_getD_mem (k : ℕ) :
    forceEmotions.getD k emoNeutral ∈ forceEmotions := by
  rcases le_or_lt forceEmotions.length k with h | h
  · rw [List.getD_eq_default _ _ h]
    decide
  · have h7 : k < 7 := by simpa [forceEmotions] using h
    interval_cases k <;> decide

/-- The fallback confidence 0.7 + r * 0.3 lies in [0.7, 1) for r in [0, 1). -/
theorem fallbackScoreBand (r : ℚ) (h0 : 0 ≤ r) (h1 : r < 1) :
    7 / 10 ≤ 7 / 10 + r * (3 / 10) ∧ 7 / 10 + r * (3 / 10) < 1 := by
  constructor <;> nlinarith

/-! ### Metric bands (claim C2) -/

/-- Modelled from the spec: the stress column of the section 4.5 band table,
as inclusive integer bounds. -/
def specStressBand (e : String) : Int × Int :=
  if e = emoStressed then (75, 99)
  else if e = emoConfused then (50, 74)
  else if e = emoSad then (60, 79)
  else if e = emoNeutral then (20, 39)
  else if e = emoFocused then (10, 24)
  else if e = emoHappy then (5, 14)
  else (15, 34)

/-- Modelled from the spec: the engagement column of the section 4.5 band
table, as inclusive integer bounds. -/
def specEngagementBand (e : String) : Int × Int :=
  if e = emoFocused ∨ e = emoHappy then (80, 99)
  else if e = emoNeutral then (50, 79)
  else if e = emoSad then (20, 49)
  else if e = emoStressed then (15, 39)
  else (30, 69)

/-- Modelled from the spec: the focus column of the section 4.5 band table,
except that the stressed row carries the band the code actually implements,
15-34 (a dedicated branch at line 272), where the table printed the fallback
band 30-59. -/
def specFocusBand (e : String) : Int × Int :=
  if e = emoFocused then (85, 99)
  else if e = emoHappy then (70, 89)
  else if e = emoNeutral then (50, 69)
  else if e = emoStressed then (15, 34)
  else if e = emoSad then (20, 39)
  else (30, 59)

/-- The stress level always lands inside its band. -/
theorem stressFor_mem_band (e : String) (r : ℚ) (h0 : 0 ≤ r) (h1 : r < 1) :
    (specStressBand e).1 ≤ stressFor e r ∧ stressFor e r ≤ (specStressBand e).2 := by
  have b10 := floorMulBand r 10 (by norm_num) h0 h1
  have b15 := floorMulBand r 15 (by norm_num) h0 h1
  have b20 := floorMulBand r 20 (by norm_num) h0 h1
  have b25 := floorMulBand r 25 (by norm_num) h0 h1
  push_cast at b10 b15 b20 b25
  unfold stressFor specStressBand
  split_ifs <;> refine ⟨?_, ?_⟩ <;> norm_num <;>
    linarith [b10.1, b10.2, b15.1, b15.2, b20.1, b20.2, b25.1, b25.2]

/-- The engagement level always lands inside its band. -/
theorem engagementFor_mem_band (e : String) (r : ℚ) (h0 : 0 ≤ r) (h1 : r < 1) :
    (specEngagementBand e).1 ≤ engagementFor e r
      ∧ engagementFor e r ≤ (specEngagementBand e).2 := by
  have b20 := floorMulBand r 20 (by norm_num) h0 h1
  have b25 := floorMulBand r 25 (by norm_num) h0 h1
  have b30 := floorMulBand r 30 (by norm_num) h0 h1
  have b40 := floorMulBand r 40 (by norm_num) h0 h1
  push_cast at b20 b25 b30 b40
  unfold engagementFor specEngagementBand
  split_ifs <;> refine ⟨?_, ?_⟩ <;> norm_num <;>
    linarith [b20.1, b20.2, b25.1, b25.2, b30.1, b30.2, b40.1, b40.2]

/-- The focus level always lands inside its band. -/
theorem focusFor_mem_band (e : String) (r : ℚ) (h0 : 0 ≤ r) (h1 : r < 1) :
    (specFocusBand e).1 ≤ focusFor e r ∧ focusFor e r ≤ (specFocusBand e).2 := by
  have b15 := floorMulBand r 15 (by norm_num) h0 h1
  have b20 := floorMulBand r 20 (by norm_num) h0 h1
  have b30 := floorMulBand r 30 (by norm_num) h0 h1
  push_cast at b15 b20 b30
  unfold focusFor specFocusBand
  split_ifs <;> refine ⟨?_, ?_⟩ <;> norm_num <;>
    linarith [b15.1, b15.2, b20.1, b20.2, b30.1, b30.2]

/-- C2 counterexample: for the emotion "stressed" with focus draw 0, the code
produces focus level 15, outside the band 30-59 that the claim asserts. -/
theorem metricsStressedFocusCounterexampleC2 :
    (updateMetricsBasedOnEmotion emoStressed 0 0 0 initialState).focusLevel = 15
      ∧ ¬(30 ≤ (updateMetricsBasedOnEmotion emoStressed 0 0 0 initialState).focusLevel
            ∧ (updateMetricsBasedOnEmotion emoStressed 0 0 0 initialState).focusLevel ≤ 59) := by
  have hf : (updateMetricsBasedOnEmotion emoStressed 0 0 0 initialState).focusLevel = 15 := by
    simp [updateMetricsBasedOnEmotion, focusFor, emoStressed, emoFocused, emoHappy, emoNeutral]
  refine ⟨hf, ?_⟩
  rw [hf]
  norm_num

/-- C2 (amended): for every emotion label and every admissible random draw,
updateMetricsBasedOnEmotion lands each of the three metrics inside its
documented band, where the stressed-focus band is the code band 15-34 rather
than the fallback band 30-59 printed in the table; unrecognized labels land
in the fallback bands (stress 15-34, engagement 30-69, focus 30-59). -/
theorem metricsWithinBandsC2 (e : String) (r1 r2 r3 : ℚ) (s : HookState)
    (h10 : 0 ≤ r1) (h11 : r1 < 1) (h20 : 0 ≤ r2) (h21 : r2 < 1)
    (h30 : 0 ≤ r3) (h31 : r3 < 1) :
    ((specStressBand e).1 ≤ (updateMetricsBasedOnEmotion e r1 r2 r3 s).stressLevel
      ∧ (updateMetricsBasedOnEmotion e r1 r2 r3 s).stressLevel ≤ (specStressBand e).2)
    ∧ ((specEngagementBand e).1 ≤ (updateMetricsBasedOnEmotion e r1 r2 r3 s).engagementLevel
      ∧ (updateMetricsBasedOnEmotion e r1 r2 r3 s).engagementLevel ≤ (specEngagementBand e).2)
    ∧ ((specFocusBand e).1 ≤ (updateMetricsBasedOnEmotion e r1 r2 r3 s).focusLevel
      ∧ (updateMetricsBasedOnEmotion e r1 r2 r3 s).focusLevel ≤ (specFocusBand e).2) := by
  refine ⟨?_, ?_, ?_⟩
  · simpa [updateMetricsBasedOnEmotion] using stressFor_mem_band e r1 h10 h11
  · simpa [updateMetricsBasedOnEmotion] using engagementFor_mem_band e r2 h20 h21
  · simpa [updateMetricsBasedOnEmotion] using focusFor_mem_band e r3 h30 h31

/-- C2 witness: the amended band theorem applied at the emotion "stressed"
with all three draws equal to one half. -/
theorem metricsWithinBandsC2_witness :
    (0 : ℚ) ≤ 1 / 2 ∧ (1 : ℚ) / 2 < 1
    ∧ (((specStressBand emoStressed).1
          ≤ (updateMetricsBasedOnEmotion emoStressed (1 / 2) (1 / 2) (1 / 2) initialState).stressLevel
        ∧ (updateMetricsBasedOnEmotion emoStressed (1 / 2) (1 / 2) (1 / 2) initialState).stressLevel
          ≤ (specStressBand emoStressed).2)
      ∧ ((specEngagementBand emoStressed).1
          ≤ (updateMetricsBasedOnEmotion emoStressed (1 / 2) (1 / 2) (1 / 2) initialState).engagementLevel
        ∧ (updateMetricsBasedOnEmotion emoStressed (1 / 2) (1 / 2) (1 / 2) initialState).engagementLevel
          ≤ (specEngagementBand emoStressed).2)
      ∧ ((specFocusBand emoStressed).1
          ≤ (updateMetricsBasedOnEmotion emoStressed (1 / 2) (1 / 2) (1 / 2) initialState).focusLevel
        ∧ (updateMetricsBasedOnEmotion emoStressed (1 / 2) (1 / 2) (1 / 2) initialState).focusLevel
          ≤ (specFocusBand emoStressed).2)) :=
  ⟨by norm_num, by norm_num,
   metricsWithinBandsC2 emoStressed (1 / 2) (1 / 2) (1 / 2) initialState
     (by norm_num) (by norm_num) (by norm_num) (by norm_num) (by norm_num) (by norm_num)⟩

/-! ### Rate limiting (claim C5) -/

/-- C5: a capture attempt arriving less than 1000 ms after the previously
recorded attempt timestamp is a complete no-op: the state is returned
unchanged (no event, no countdown reset, no processing flag, no token
change) and no toast is emitted. -/
theorem rateLimitedNoOpC5 (env : DetectEnv) (s : HookState) (now tEvent : Nat)
    (apiResult : Except Unit EmotionResult) (rfall rscore r1 r2 r3 : ℚ) (ctrlId : Nat)
    (hlt : (now : Int) - (s.lastApiCallTimeRef : Int) < 1000) :
    processVideoFrame env s now tEvent apiResult rfall rscore r1 r2 r3 ctrlId = (s, []) := by
  by_cases hg : env.hasVideo = false ∨ env.hasCanvas = false ∨ s.isAnalyzing = false ∨ s.isProcessing = true
  · unfold processVideoFrame
    rw [if_pos hg]
  · unfold processVideoFrame
    rw [if_neg hg, if_pos hlt]

/-- C5 witness: a second attempt 400 ms after an attempt recorded at 500 ms
leaves the state untouched. -/
theorem rateLimitedNoOpC5_witness :
    ((900 : Int) - (({ initialState with lastApiCallTimeRef := 500 } : HookState).lastApiCallTimeRef : Int) < 1000)
    ∧ processVideoFrame ⟨true, true, true⟩ { initialState with lastApiCallTimeRef := 500 }
        900 900 (Except.error ()) 0 0 0 0 0 1
      = ({ initialState with lastApiCallTimeRef := 500 }, []) :=
  ⟨by decide,
   rateLimitedNoOpC5 ⟨true, true, true⟩ { initialState with lastApiCallTimeRef := 500 }
     900 900 (Except.error ()) 0 0 0 0 0 1 (by decide)⟩

/-! ### Stopping (claims C9 and C10) -/

/-- C9: stopAnalysis is safe and idempotent from any state: after one call and
after a second call all resources are released (stream, interval handle and
controller all null, analyzing false), and the second call changes nothing. -/
theorem stopTwiceC9 (env : DetectEnv) (s : HookState) :
    ((stopAnalysis env s).1.isAnalyzing = false
      ∧ (stopAnalysis env s).1.mediaStreamRef = none
      ∧ (stopAnalysis env s).1.timerIntervalRef = none
      ∧ (stopAnalysis env s).1.abortControllerRef = none)
    ∧ ((stopAnalysis env (stopAnalysis env s).1).1.isAnalyzing = false
      ∧ (stopAnalysis env (stopAnalysis env s).1).1.mediaStreamRef = none
      ∧ (stopAnalysis env (stopAnalysis env s).1).1.timerIntervalRef = none
      ∧ (stopAnalysis env (stopAnalysis env s).1).1.abortControllerRef = none)
    ∧ (stopAnalysis env (stopAnalysis env s).1).1 = (stopAnalysis env s).1 := by
  cases h : s.abortControllerRef <;> cases hv : env.hasVideo <;>
    simp [stopAnalysis, h, hv]

/-- startAnalysis never modifies the emotion data or the metrics when the
current emotion is a truthy (non-null, non-empty) label: the neutral seed of
lines 306-315 is skipped. -/
theorem startAnalysis_preserves_data (env : DetectEnv) (s : HookState)
    (cam mic : Bool) (now sid iid : Nat) (m1 m2 m3 : ℚ)
    (h : jsTruthy s.currentEmotion = true) :
    (startAnalysis env s cam mic now sid iid m1 m2 m3).1.currentEmotion = s.currentEmotion
    ∧ (startAnalysis env s cam mic now sid iid m1 m2 m3).1.emotionHistory = s.emotionHistory
    ∧ (startAnalysis env s cam mic now sid iid m1 m2 m3).1.stressLevel = s.stressLevel
    ∧ (startAnalysis env s cam mic now sid iid m1 m2 m3).1.engagementLevel = s.engagementLevel
    ∧ (startAnalysis env s cam mic now sid iid m1 m2 m3).1.focusLevel = s.focusLevel := by
  unfold startAnalysis requestCameraPermission requestMicPermission
  cases hv : env.hasVideo <;> cases hc : cam <;> cases hm : mic <;>
    rcases hmp : s.micPermission with _ | b
  all_goals try cases b
  all_goals simp [hv, hc, hm, hmp, h, updateMetricsBasedOnEmotion]
  all_goals split <;> simp

/-- C10: stopAnalysis resets only the session machinery — analyzing flag,
interval handle, media stream, video display, abort controller — and leaves
all emotion data, metrics, popup state and permission state untouched; and
restarting afterwards does not re-apply the neutral seed when a truthy
current emotion survives, so emotion data and metrics survive a stop/restart
cycle. -/
theorem stopFrameC10 (env : DetectEnv) (s : HookState) :
    ((stopAnalysis env s).1.currentEmotion = s.currentEmotion
      ∧ (stopAnalysis env s).1.emotionHistory = s.emotionHistory
      ∧ (stopAnalysis env s).1.stressLevel = s.stressLevel
      ∧ (stopAnalysis env s).1.engagementLevel = s.engagementLevel
      ∧ (stopAnalysis env s).1.focusLevel = s.focusLevel
      ∧ (stopAnalysis env s).1.showEmotionPopup = s.showEmotionPopup
      ∧ (stopAnalysis env s).1.popupEmotion = s.popupEmotion
      ∧ (stopAnalysis env s).1.cameraPermission = s.cameraPermission
      ∧ (stopAnalysis env s).1.micPermission = s.micPermission
      ∧ (stopAnalysis env s).1.showInfo = s.showInfo
      ∧ (stopAnalysis env s).1.lastDetectionTime = s.lastDetectionTime
      ∧ (stopAnalysis env s).1.timerCount = s.timerCount
      ∧ (stopAnalysis env s).1.isProcessing = s.isProcessing
      ∧ (stopAnalysis env s).1.lastApiCallTimeRef = s.lastApiCallTimeRef
      ∧ (stopAnalysis env s).1.popupTimeoutRef = s.popupTimeoutRef
      ∧ (stopAnalysis env s).1.isAnalyzing = false
      ∧ (stopAnalysis env s).1.timerIntervalRef = none
      ∧ (stopAnalysis env s).1.mediaStreamRef = none
      ∧ (stopAnalysis env s).1.abortControllerRef = none)
    ∧ (∀ (env2 : DetectEnv) (cam mic : Bool) (now sid iid : Nat) (m1 m2 m3 : ℚ),
        jsTruthy s.currentEmotion = true →
        ((startAnalysis env2 (stopAnalysis env s).1 cam mic now sid iid m1 m2 m3).1.currentEmotion
            = s.currentEmotion
          ∧ (startAnalysis env2 (stopAnalysis env s).1 cam mic now sid iid m1 m2 m3).1.emotionHistory
            = s.emotionHistory
          ∧ (startAnalysis env2 (stopAnalysis env s).1 cam mic now sid iid m1 m2 m3).1.stressLevel
            = s.stressLevel
          ∧ (startAnalysis env2 (stopAnalysis env s).1 cam mic now sid iid m1 m2 m3).1.engagementLevel
            = s.engagementLevel
          ∧ (startAnalysis env2 (stopAnalysis env s).1 cam mic now sid iid m1 m2 m3).1.focusLevel
            = s.focusLevel)) := by
  have hstop : (stopAnalysis env s).1.currentEmotion = s.currentEmotion
      ∧ (stopAnalysis env s).1.emotionHistory = s.emotionHistory
      ∧ (stopAnalysis env s).1.stressLevel = s.stressLevel
      ∧ (stopAnalysis env s).1.engagementLevel = s.engagementLevel
      ∧ (stopAnalysis env s).1.focusLevel = s.focusLevel
      ∧ (stopAnalysis env s).1.showEmotionPopup = s.showEmotionPopup
      ∧ (stopAnalysis env s).1.popupEmotion = s.popupEmotion
      ∧ (stopAnalysis env s).1.cameraPermission = s.cameraPermission
      ∧ (stopAnalysis env s).1.micPermission = s.micPermission
      ∧ (stopAnalysis env s).1.showInfo = s.showInfo
      ∧ (stopAnalysis env s).1.lastDetectionTime = s.lastDetectionTime
      ∧ (stopAnalysis env s).1.timerCount = s.timerCount
      ∧ (stopAnalysis env s).1.isProcessing = s.isProcessing
      ∧ (stopAnalysis env s).1.lastApiCallTimeRef = s.lastApiCallTimeRef
      ∧ (stopAnalysis env s).1.popupTimeoutRef = s.popupTimeoutRef
      ∧ (stopAnalysis env s).1.isAnalyzing = false
      ∧ (stopAnalysis env s).1.timerIntervalRef = none
      ∧ (stopAnalysis env s).1.mediaStreamRef = none
      ∧ (stopAnalysis env s).1.abortControllerRef = none := by
    cases h : s.abortControllerRef <;> cases hv : env.hasVideo <;>
      simp [stopAnalysis, h, hv]
  refine ⟨hstop, ?_⟩
  intro env2 cam mic now sid iid m1 m2 m3 htruthy
  have htruthy2 : jsTruthy (stopAnalysis env s).1.currentEmotion = true := by
    rw [hstop.1]; exact htruthy
  have hp := startAnalysis_preserves_data env2 (stopAnalysis env s).1 cam mic now sid iid m1 m2 m3 htruthy2
  exact ⟨hp.1.trans hstop.1, hp.2.1.trans hstop.2.1, hp.2.2.1.trans hstop.2.2.1,
         hp.2.2.2.1.trans hstop.2.2.2.1, hp.2.2.2.2.trans hstop.2.2.2.2.1⟩

/-- C10 witness: the frame theorem applied to a state whose current emotion is
the label "happy", with a full stop/restart cycle. -/
theorem stopFrameC10_witness :
    jsTruthy ({ initialState with currentEmotion := some emoHappy } : HookState).currentEmotion = true
    ∧ ((startAnalysis ⟨true, true, true⟩
          (stopAnalysis ⟨true, true, true⟩ { initialState with currentEmotion := some emoHappy }).1
          true true 0 1 2 0 0 0).1.currentEmotion
        = ({ initialState with currentEmotion := some emoHappy } : HookState).currentEmotion
      ∧ (startAnalysis ⟨true, true, true⟩
          (stopAnalysis ⟨true, true, true⟩ { initialState with currentEmotion := some emoHappy }).1
          true true 0 1 2 0 0 0).1.emotionHistory
        = ({ initialState with currentEmotion := some emoHappy } : HookState).emotionHistory
      ∧ (startAnalysis ⟨true, true, true⟩
          (stopAnalysis ⟨true, true, true⟩ { initialState with currentEmotion := some emoHappy }).1
          true true 0 1 2 0 0 0).1.stressLevel
        = ({ initialState with currentEmotion := some emoHappy } : HookState).stressLevel
      ∧ (startAnalysis ⟨true, true, true⟩
          (stopAnalysis ⟨true, true, true⟩ { initialState with currentEmotion := some emoHappy }).1
          true true 0 1 2 0 0 0).1.engagementLevel
        = ({ initialState with currentEmotion := some emoHappy } : HookState).engagementLevel
      ∧ (startAnalysis ⟨true, true, true⟩
          (stopAnalysis ⟨true, true, true⟩ { initialState with currentEmotion := some emoHappy }).1
          true true 0 1 2 0 0 0).1.focusLevel
        = ({ initialState with currentEmotion := some emoHappy } : HookState).focusLevel) :=
  ⟨by decide,
   (stopFrameC10 ⟨true, true, true⟩ { initialState with currentEmotion := some emoHappy }).2
     ⟨true, true, true⟩ true true 0 1 2 0 0 0 (by decide)⟩

/-! ### Popup timing (claim C4) -/

/-- C4: a popup for "stressed" at t1 retriggered for "sad" at t2 within 8000 ms
cancels the first pending auto-dismiss, shows only "sad", and auto-hides at
t2 + 8000, not at t1 + 8000. -/
theorem popupRetriggerC4 (s : HookState) (t1 t2 : Nat)
    (h12 : t1 < t2) (h28 : t2 < t1 + 8000) :
    (showEmotionalSupportPopup emoSad t2 (showEmotionalSupportPopup emoStressed t1 s)).showEmotionPopup = true
    ∧ (showEmotionalSupportPopup emoSad t2 (showEmotionalSupportPopup emoStressed t1 s)).popupEmotion
        = some emoSad
    ∧ (showEmotionalSupportPopup emoSad t2 (showEmotionalSupportPopup emoStressed t1 s)).popupTimeoutRef
        = some (t2 + 8000)
    ∧ firePopupTimeout (showEmotionalSupportPopup emoSad t2 (showEmotionalSupportPopup emoStressed t1 s))
        (t1 + 8000)
      = showEmotionalSupportPopup emoSad t2 (showEmotionalSupportPopup emoStressed t1 s)
    ∧ (firePopupTimeout (showEmotionalSupportPopup emoSad t2 (showEmotionalSupportPopup emoStressed t1 s))
        (t2 + 8000)).showEmotionPopup = false
    ∧ (firePopupTimeout (showEmotionalSupportPopup emoSad t2 (showEmotionalSupportPopup emoStressed t1 s))
        (t2 + 8000)).popupTimeoutRef = none := by
  refine ⟨rfl, rfl, rfl, ?_, ?_, ?_⟩
  · unfold firePopupTimeout showEmotionalSupportPopup
    simp only []
    rw [if_neg (by omega)]
  · simp [firePopupTimeout, showEmotionalSupportPopup]
  · simp [firePopupTimeout, showEmotionalSupportPopup]

/-- C4 witness: trigger "stressed" at 0 then "sad" at 1000; the popup shows
"sad" and is dismissed at 9000, not 8000. -/
theorem popupRetriggerC4_witness :
    (0 : Nat) < 1000 ∧ (1000 : Nat) < 0 + 8000
    ∧ ((showEmotionalSupportPopup emoSad 1000 (showEmotionalSupportPopup emoStressed 0 initialState)).showEmotionPopup = true
      ∧ (showEmotionalSupportPopup emoSad 1000 (showEmotionalSupportPopup emoStressed 0 initialState)).popupEmotion
          = some emoSad
      ∧ (showEmotionalSupportPopup emoSad 1000 (showEmotionalSupportPopup emoStressed 0 initialState)).popupTimeoutRef
          = some (1000 + 8000)
      ∧ firePopupTimeout (showEmotionalSupportPopup emoSad 1000 (showEmotionalSupportPopup emoStressed 0 initialState))
          (0 + 8000)
        = showEmotionalSupportPopup emoSad 1000 (showEmotionalSupportPopup emoStressed 0 initialState)
      ∧ (firePopupTimeout (showEmotionalSupportPopup emoSad 1000 (showEmotionalSupportPopup emoStressed 0 initialState))
          (1000 + 8000)).showEmotionPopup = false
      ∧ (firePopupTimeout (showEmotionalSupportPopup emoSad 1000 (showEmotionalSupportPopup emoStressed 0 initialState))
          (1000 + 8000)).popupTimeoutRef = none) :=
  ⟨by decide, by decide, popupRetriggerC4 initialState 0 1000 (by decide) (by decide)⟩

/-! ### History bound (claim C1) -/

/-- Environment in which video, canvas and drawing context are all available. -/
def envAll : DetectEnv := ⟨true, true, true⟩

/-- The initial state with analysis switched on, a convenient concrete state. -/
def analyzingState : HookState := { initialState with isAnalyzing := true }

/-- C1: the emotion history is a bounded rolling buffer.  Folding the shared
append-and-truncate update over any event sequence keeps at most 12 events,
namely exactly the most recent ones in arrival order (the drop of all but the
last 12); and each of the three producing paths — API success, classifier
failure and forced update — updates the history with exactly that shared
update applied to its one new event. -/
theorem historyBoundC1 :
    (∀ es : List EmotionEvent,
        (List.foldl appendEmotion [] es).length ≤ 12
        ∧ List.foldl appendEmotion [] es = es.drop (es.length - 12))
    ∧ (∀ (env : DetectEnv) (s : HookState) (now tEvent : Nat) (res : EmotionResult)
        (rfall rscore r1 r2 r3 : ℚ) (ctrlId : Nat),
        env.hasVideo = true → env.hasCanvas = true → s.isAnalyzing = true →
        s.isProcessing = false → env.ctxOk = true →
        ¬((now : Int) - (s.lastApiCallTimeRef : Int) < 1000) →
        (processVideoFrame env s now tEvent (Except.ok res) rfall rscore r1 r2 r3 ctrlId).1.emotionHistory
          = appendEmotion s.emotionHistory ⟨res.emotion, tEvent, res.confidence⟩)
    ∧ (∀ (env : DetectEnv) (s : HookState) (now tEvent : Nat)
        (rfall rscore r1 r2 r3 : ℚ) (ctrlId : Nat),
        env.hasVideo = true → env.hasCanvas = true → s.isAnalyzing = true →
        s.isProcessing = false → env.ctxOk = true →
        ¬((now : Int) - (s.lastApiCallTimeRef : Int) < 1000) →
        (processVideoFrame env s now tEvent (Except.error ()) rfall rscore r1 r2 r3 ctrlId).1.emotionHistory
          = appendEmotion s.emotionHistory
              ⟨fallbackEmotions.getD (⌊rfall * 6⌋.toNat) emoNeutral, tEvent, 7 / 10 + rscore * (3 / 10)⟩)
    ∧ (∀ (s : HookState) (now : Nat) (remo rscore r1 r2 r3 : ℚ),
        s.isAnalyzing = true →
        (forceEmotionUpdate s now remo rscore r1 r2 r3).emotionHistory
          = appendEmotion s.emotionHistory
              ⟨forceEmotions.getD (⌊remo * 7⌋.toNat) emoNeutral, now, 7 / 10 + rscore * (3 / 10)⟩) := by
  refine ⟨?_, ?_, ?_, ?_⟩
  · intro es
    refine ⟨?_, foldl_appendEmotion_nil es⟩
    rw [foldl_appendEmotion_nil, List.length_drop]
    omega
  · intro env s now tEvent res rfall rscore r1 r2 r3 ctrlId h1 h2 h3 h4 h5 h6
    have hg : ¬(env.hasVideo = false ∨ env.hasCanvas = false
        ∨ s.isAnalyzing = false ∨ s.isProcessing = true) := by
      simp [h1, h2, h3, h4]
    have hctx : ¬(env.ctxOk = false) := by simp [h5]
    unfold processVideoFrame
    rw [if_neg hg, if_neg h6, if_neg hctx]
    by_cases hp : res.emotion = emoStressed ∨ res.emotion = emoSad <;>
      simp [hp, showEmotionalSupportPopup, updateMetricsBasedOnEmotion]
  · intro env s now tEvent rfall rscore r1 r2 r3 ctrlId h1 h2 h3 h4 h5 h6
    have hg : ¬(env.hasVideo = false ∨ env.hasCanvas = false
        ∨ s.isAnalyzing = false ∨ s.isProcessing = true) := by
      simp [h1, h2, h3, h4]
    have hctx : ¬(env.ctxOk = false) := by simp [h5]
    unfold processVideoFrame
    rw [if_neg hg, if_neg h6, if_neg hctx]
    simp [updateMetricsBasedOnEmotion]
  · intro s now remo rscore r1 r2 r3 h3
    have hg : ¬(s.isAnalyzing = false) := by simp [h3]
    unfold forceEmotionUpdate
    rw [if_neg hg]
    simp [updateMetricsBasedOnEmotion]

/-- C1 witness: a run of 13 identical events keeps only the last 12, and all
three paths append through the shared update at a concrete analyzing state. -/
theorem historyBoundC1_witness :
    ((List.foldl appendEmotion [] (List.replicate 13 ⟨emoHappy, 0, 1⟩)).length ≤ 12
      ∧ List.foldl appendEmotion [] (List.replicate 13 ⟨emoHappy, 0, 1⟩)
          = (List.replicate 13 (⟨emoHappy, 0, 1⟩ : EmotionEvent)).drop
              ((List.replicate 13 (⟨emoHappy, 0, 1⟩ : EmotionEvent)).length - 12))
    ∧ (processVideoFrame envAll analyzingState 2000 2001 (Except.ok ⟨emoHappy, 9 / 10⟩)
          0 0 0 0 0 7).1.emotionHistory
        = appendEmotion analyzingState.emotionHistory ⟨emoHappy, 2001, 9 / 10⟩
    ∧ (processVideoFrame envAll analyzingState 2000 2001 (Except.error ())
          0 0 0 0 0 7).1.emotionHistory
        = appendEmotion analyzingState.emotionHistory
            ⟨fallbackEmotions.getD (⌊(0 : ℚ) * 6⌋.toNat) emoNeutral, 2001, 7 / 10 + 0 * (3 / 10)⟩
    ∧ (forceEmotionUpdate analyzingState 2001 0 0 0 0 0).emotionHistory
        = appendEmotion analyzingState.emotionHistory
            ⟨forceEmotions.getD (⌊(0 : ℚ) * 7⌋.toNat) emoNeutral, 2001, 7 / 10 + 0 * (3 / 10)⟩ :=
  ⟨historyBoundC1.1 (List.replicate 13 ⟨emoHappy, 0, 1⟩),
   historyBoundC1.2.1 envAll analyzingState 2000 2001 ⟨emoHappy, 9 / 10⟩ 0 0 0 0 0 7
     rfl rfl rfl rfl rfl (by decide),
   historyBoundC1.2.2.1 envAll analyzingState 2000 2001 0 0 0 0 0 7
     rfl rfl rfl rfl rfl (by decide),
   historyBoundC1.2.2.2 analyzingState 2001 0 0 0 0 0 rfl⟩

/-! ### Popup triggering (claim C3) -/

/-- C3 counterexample: a forced update that records the trigger emotion "sad"
in an analyzing state leaves the popup hidden — forceEmotionUpdate never calls
showEmotionalSupportPopup, contradicting the claim that every recorded trigger
emotion makes the popup visible. -/
theorem forcedSadNoPopupC3_counterexample :
    (forceEmotionUpdate analyzingState 0 (4 / 7) 0 0 0 0).currentEmotion = some emoSad
    ∧ (forceEmotionUpdate analyzingState 0 (4 / 7) 0 0 0 0).showEmotionPopup = false
    ∧ (forceEmotionUpdate analyzingState 0 (4 / 7) 0 0 0 0).popupEmotion = none := by
  have h47 : ((4 : ℚ) / 7) * 7 = 4 := by norm_num
  have hidx : (⌊((4 : ℚ) / 7) * 7⌋).toNat = 4 := by
    rw [h47]
    simp
  refine ⟨?_, ?_, ?_⟩ <;>
    simp [forceEmotionUpdate, analyzingState, initialState, hidx,
      updateMetricsBasedOnEmotion]
  decide

/-- C3 (amended): only the API-success path triggers the support popup.  When
processVideoFrame succeeds with an emotion in the trigger set the popup
becomes visible showing that emotion with an auto-dismiss scheduled 8000 ms
later; the classifier-failure fallback path and forceEmotionUpdate leave the
popup state (visibility, shown emotion, pending dismissal) untouched. -/
theorem popupTriggerC3 :
    (∀ (env : DetectEnv) (s : HookState) (now tEvent : Nat) (res : EmotionResult)
        (rfall rscore r1 r2 r3 : ℚ) (ctrlId : Nat),
        env.hasVideo = true → env.hasCanvas = true → s.isAnalyzing = true →
        s.isProcessing = false → env.ctxOk = true →
        ¬((now : Int) - (s.lastApiCallTimeRef : Int) < 1000) →
        (res.emotion = emoStressed ∨ res.emotion = emoSad) →
        ((processVideoFrame env s now tEvent (Except.ok res) rfall rscore r1 r2 r3 ctrlId).1.showEmotionPopup = true
          ∧ (processVideoFrame env s now tEvent (Except.ok res) rfall rscore r1 r2 r3 ctrlId).1.popupEmotion
              = some res.emotion
          ∧ (processVideoFrame env s now tEvent (Except.ok res) rfall rscore r1 r2 r3 ctrlId).1.popupTimeoutRef
              = some (tEvent + 8000)))
    ∧ (∀ (env : DetectEnv) (s : HookState) (now tEvent : Nat)
        (rfall rscore r1 r2 r3 : ℚ) (ctrlId : Nat),
        (processVideoFrame env s now tEvent (Except.error ()) rfall rscore r1 r2 r3 ctrlId).1.showEmotionPopup
            = s.showEmotionPopup
          ∧ (processVideoFrame env s now tEvent (Except.error ()) rfall rscore r1 r2 r3 ctrlId).1.popupEmotion
              = s.popupEmotion
          ∧ (processVideoFrame env s now tEvent (Except.error ()) rfall rscore r1 r2 r3 ctrlId).1.popupTimeoutRef
              = s.popupTimeoutRef)
    ∧ (∀ (s : HookState) (now : Nat) (remo rscore r1 r2 r3 : ℚ),
        (forceEmotionUpdate s now remo rscore r1 r2 r3).showEmotionPopup = s.showEmotionPopup
          ∧ (forceEmotionUpdate s now remo rscore r1 r2 r3).popupEmotion = s.popupEmotion
          ∧ (forceEmotionUpdate s now remo rscore r1 r2 r3).popupTimeoutRef = s.popupTimeoutRef) := by
  refine ⟨?_, ?_, ?_⟩
  · intro env s now tEvent res rfall rscore r1 r2 r3 ctrlId h1 h2 h3 h4 h5 h6 htrig
    have hg : ¬(env.hasVideo = false ∨ env.hasCanvas = false
        ∨ s.isAnalyzing = false ∨ s.isProcessing = true) := by
      simp [h1, h2, h3, h4]
    have hctx : ¬(env.ctxOk = false) := by simp [h5]
    unfold processVideoFrame
    rw [if_neg hg, if_neg h6, if_neg hctx]
    simp [htrig, showEmotionalSupportPopup, updateMetricsBasedOnEmotion]
  · intro env s now tEvent rfall rscore r1 r2 r3 ctrlId
    by_cases hg : env.hasVideo = false ∨ env.hasCanvas = false
        ∨ s.isAnalyzing = false ∨ s.isProcessing = true
    · unfold processVideoFrame
      rw [if_pos hg]
      exact ⟨rfl, rfl, rfl⟩
    · by_cases hrate : (now : Int) - (s.lastApiCallTimeRef : Int) < 1000
      · unfold processVideoFrame
        rw [if_neg hg, if_pos hrate]
        exact ⟨rfl, rfl, rfl⟩
      · by_cases hctx : env.ctxOk = false
        · unfold processVideoFrame
          rw [if_neg hg, if_neg hrate, if_pos hctx]
          exact ⟨rfl, rfl, rfl⟩
        · unfold processVideoFrame
          rw [if_neg hg, if_neg hrate, if_neg hctx]
          simp [updateMetricsBasedOnEmotion]
  · intro s now remo rscore r1 r2 r3
    by_cases ha : s.isAnalyzing = false
    · unfold forceEmotionUpdate
      rw [if_pos ha]
      exact ⟨rfl, rfl, rfl⟩
    · unfold forceEmotionUpdate
      rw [if_neg ha]
      simp [updateMetricsBasedOnEmotion]

/-- C3 witness: the amended popup theorem applied at a concrete analyzing
state for a successful detection of "sad", for a failed detection, and for a
forced update. -/
theorem popupTriggerC3_witness :
    ((processVideoFrame envAll analyzingState 2000 2001 (Except.ok ⟨emoSad, 9 / 10⟩)
          0 0 0 0 0 7).1.showEmotionPopup = true
      ∧ (processVideoFrame envAll analyzingState 2000 2001 (Except.ok ⟨emoSad, 9 / 10⟩)
          0 0 0 0 0 7).1.popupEmotion = some (⟨emoSad, 9 / 10⟩ : EmotionResult).emotion
      ∧ (processVideoFrame envAll analyzingState 2000 2001 (Except.ok ⟨emoSad, 9 / 10⟩)
          0 0 0 0 0 7).1.popupTimeoutRef = some (2001 + 8000))
    ∧ ((processVideoFrame envAll analyzingState 2000 2001 (Except.error ())
          0 0 0 0 0 7).1.showEmotionPopup = analyzingState.showEmotionPopup
      ∧ (processVideoFrame envAll analyzingState 2000 2001 (Except.error ())
          0 0 0 0 0 7).1.popupEmotion = analyzingState.popupEmotion
      ∧ (processVideoFrame envAll analyzingState 2000 2001 (Except.error ())
          0 0 0 0 0 7).1.popupTimeoutRef = analyzingState.popupTimeoutRef)
    ∧ ((forceEmotionUpdate analyzingState 2001 0 0 0 0 0).showEmotionPopup
          = analyzingState.showEmotionPopup
      ∧ (forceEmotionUpdate analyzingState 2001 0 0 0 0 0).popupEmotion
          = analyzingState.popupEmotion
      ∧ (forceEmotionUpdate analyzingState 2001 0 0 0 0 0).popupTimeoutRef
          = analyzingState.popupTimeoutRef) :=
  ⟨popupTriggerC3.1 envAll analyzingState 2000 2001 ⟨emoSad, 9 / 10⟩ 0 0 0 0 0 7
     rfl rfl rfl rfl rfl (by decide) (Or.inr rfl),
   popupTriggerC3.2.1 envAll analyzingState 2000 2001 0 0 0 0 0 7,
   popupTriggerC3.2.2 analyzingState 2001 0 0 0 0 0⟩

/-! ### Classifier failure (claim C6) -/

/-- C6: when the classifier call fails, processVideoFrame still produces a
Classification Event: the fallback emotion (a member of the seven-label set)
becomes the current emotion, is appended to the history with a confidence in
[0.7, 1.0), and drives the derived metrics; the only outward sign of the
failure is one warning toast; and on completion the processing flag is
cleared and the controller reference is nulled. -/
theorem classifierFailureFallbackC6 (env : DetectEnv) (s : HookState)
    (now tEvent : Nat) (rfall rscore r1 r2 r3 : ℚ) (ctrlId : Nat)
    (h1 : env.hasVideo = true) (h2 : env.hasCanvas = true) (h3 : s.isAnalyzing = true)
    (h4 : s.isProcessing = false) (h5 : env.ctxOk = true)
    (h6 : ¬((now : Int) - (s.lastApiCallTimeRef : Int) < 1000))
    (hs0 : 0 ≤ rscore) (hs1 : rscore < 1) :
    (processVideoFrame env s now tEvent (Except.error ()) rfall rscore r1 r2 r3 ctrlId).1.currentEmotion
        = some (fallbackEmotions.getD (⌊rfall * 6⌋.toNat) emoNeutral)
    ∧ (processVideoFrame env s now tEvent (Except.error ()) rfall rscore r1 r2 r3 ctrlId).1.emotionHistory
        = appendEmotion s.emotionHistory
            ⟨fallbackEmotions.getD (⌊rfall * 6⌋.toNat) emoNeutral, tEvent, 7 / 10 + rscore * (3 / 10)⟩
    ∧ fallbackEmotions.getD (⌊rfall * 6⌋.toNat) emoNeutral ∈ forceEmotions
    ∧ 7 / 10 ≤ 7 / 10 + rscore * (3 / 10) ∧ 7 / 10 + rscore * (3 / 10) < 1
    ∧ (processVideoFrame env s now tEvent (Except.error ()) rfall rscore r1 r2 r3 ctrlId).1.stressLevel
        = stressFor (fallbackEmotions.getD (⌊rfall * 6⌋.toNat) emoNeutral) r1
    ∧ (processVideoFrame env s now tEvent (Except.error ()) rfall rscore r1 r2 r3 ctrlId).1.engagementLevel
        = engagementFor (fallbackEmotions.getD (⌊rfall * 6⌋.toNat) emoNeutral) r2
    ∧ (processVideoFrame env s now tEvent (Except.error ()) rfall rscore r1 r2 r3 ctrlId).1.focusLevel
        = focusFor (fallbackEmotions.getD (⌊rfall * 6⌋.toNat) emoNeutral) r3
    ∧ (processVideoFrame env s now tEvent (Except.error ()) rfall rscore r1 r2 r3 ctrlId).1.isProcessing
        = false
    ∧ (processVideoFrame env s now tEvent (Except.error ()) rfall rscore r1 r2 r3 ctrlId).1.abortControllerRef
        = none
    ∧ (processVideoFrame env s now tEvent (Except.error ()) rfall rscore r1 r2 r3 ctrlId).2
        = [ ⟨ToastKind.error, toastAnalysisError⟩ ] := by
  have hg : ¬(env.hasVideo = false ∨ env.hasCanvas = false
      ∨ s.isAnalyzing = false ∨ s.isProcessing = true) := by
    simp [h1, h2, h3, h4]
  have hctx : ¬(env.ctxOk = false) := by simp [h5]
  have hband := fallbackScoreBand rscore hs0 hs1
  unfold processVideoFrame
  rw [if_neg hg, if_neg h6, if_neg hctx]
  refine ⟨?_, ?_, fallback_getD_mem_force _, hband.1, hband.2, ?_, ?_, ?_, ?_, ?_, ?_⟩ <;>
    simp [updateMetricsBasedOnEmotion]

/-- C6 witness: the fallback theorem applied at a concrete analyzing state
with both random draws equal to one half. -/
theorem classifierFailureFallbackC6_witness :
    (0 : ℚ) ≤ 1 / 2 ∧ (1 : ℚ) / 2 < 1
    ∧ ((processVideoFrame envAll analyzingState 2000 2001 (Except.error ())
          (1 / 2) (1 / 2) 0 0 0 7).1.currentEmotion
        = some (fallbackEmotions.getD (⌊(1 : ℚ) / 2 * 6⌋.toNat) emoNeutral)
      ∧ (processVideoFrame envAll analyzingState 2000 2001 (Except.error ())
          (1 / 2) (1 / 2) 0 0 0 7).1.emotionHistory
        = appendEmotion analyzingState.emotionHistory
            ⟨fallbackEmotions.getD (⌊(1 : ℚ) / 2 * 6⌋.toNat) emoNeutral, 2001,
              7 / 10 + 1 / 2 * (3 / 10)⟩
      ∧ fallbackEmotions.getD (⌊(1 : ℚ) / 2 * 6⌋.toNat) emoNeutral ∈ forceEmotions
      ∧ (7 : ℚ) / 10 ≤ 7 / 10 + 1 / 2 * (3 / 10) ∧ (7 : ℚ) / 10 + 1 / 2 * (3 / 10) < 1
      ∧ (processVideoFrame envAll analyzingState 2000 2001 (Except.error ())
          (1 / 2) (1 / 2) 0 0 0 7).1.stressLevel
        = stressFor (fallbackEmotions.getD (⌊(1 : ℚ) / 2 * 6⌋.toNat) emoNeutral) 0
      ∧ (processVideoFrame envAll analyzingState 2000 2001 (Except.error ())
          (1 / 2) (1 / 2) 0 0 0 7).1.engagementLevel
        = engagementFor (fallbackEmotions.getD (⌊(1 : ℚ) / 2 * 6⌋.toNat) emoNeutral) 0
      ∧ (processVideoFrame envAll analyzingState 2000 2001 (Except.error ())
          (1 / 2) (1 / 2) 0 0 0 7).1.focusLevel
        = focusFor (fallbackEmotions.getD (⌊(1 : ℚ) / 2 * 6⌋.toNat) emoNeutral) 0
      ∧ (processVideoFrame envAll analyzingState 2000 2001 (Except.error ())
          (1 / 2) (1 / 2) 0 0 0 7).1.isProcessing = false
      ∧ (processVideoFrame envAll analyzingState 2000 2001 (Except.error ())
          (1 / 2) (1 / 2) 0 0 0 7).1.abortControllerRef = none
      ∧ (processVideoFrame envAll analyzingState 2000 2001 (Except.error ())
          (1 / 2) (1 / 2) 0 0 0 7).2 = [ ⟨ToastKind.error, toastAnalysisError⟩ ]) :=
  ⟨by norm_num, by norm_num,
   classifierFailureFallbackC6 envAll analyzingState 2000 2001 (1 / 2) (1 / 2) 0 0 0 7
     rfl rfl rfl rfl rfl (by decide) (by norm_num) (by norm_num)⟩

/-! ### Forced update (claim C7) -/

/-- C7: while analyzing, forceEmotionUpdate records a Classification Event
whose label is drawn uniformly from the seven-label list — the index is
Math.floor of the draw scaled by 7, and each index k < 7 is hit exactly on
the equal-length interval [k/7, (k+1)/7) of draws — with confidence
0.7 + r * 0.3 in [0.7, 1.0), updates the current emotion, the history and
the three derived metrics through the shared code paths, and changes nothing
else in the state. -/
theorem forcedUpdateC7 (s : HookState) (now : Nat) (remo rscore r1 r2 r3 : ℚ)
    (h3 : s.isAnalyzing = true) (he0 : 0 ≤ remo) (he1 : remo < 1)
    (hs0 : 0 ≤ rscore) (hs1 : rscore < 1) :
    (forceEmotionUpdate s now remo rscore r1 r2 r3).currentEmotion
        = some (forceEmotions.getD (⌊remo * 7⌋.toNat) emoNeutral)
    ∧ forceEmotions.getD (⌊remo * 7⌋.toNat) emoNeutral ∈ forceEmotions
    ∧ ⌊remo * 7⌋.toNat < 7
    ∧ (∀ k : ℕ, k < 7 →
        (⌊remo * 7⌋.toNat = k ↔ ((k : ℚ) / 7 ≤ remo ∧ remo < ((k : ℚ) + 1) / 7)))
    ∧ (forceEmotionUpdate s now remo rscore r1 r2 r3).emotionHistory
        = appendEmotion s.emotionHistory
            ⟨forceEmotions.getD (⌊remo * 7⌋.toNat) emoNeutral, now, 7 / 10 + rscore * (3 / 10)⟩
    ∧ 7 / 10 ≤ 7 / 10 + rscore * (3 / 10) ∧ 7 / 10 + rscore * (3 / 10) < 1
    ∧ (forceEmotionUpdate s now remo rscore r1 r2 r3).stressLevel
        = stressFor (forceEmotions.getD (⌊remo * 7⌋.toNat) emoNeutral) r1
    ∧ (forceEmotionUpdate s now remo rscore r1 r2 r3).engagementLevel
        = engagementFor (forceEmotions.getD (⌊remo * 7⌋.toNat) emoNeutral) r2
    ∧ (forceEmotionUpdate s now remo rscore r1 r2 r3).focusLevel
        = focusFor (forceEmotions.getD (⌊remo * 7⌋.toNat) emoNeutral) r3
    ∧ (forceEmotionUpdate s now remo rscore r1 r2 r3).cameraPermission = s.cameraPermission
    ∧ (forceEmotionUpdate s now remo rscore r1 r2 r3).micPermission = s.micPermission
    ∧ (forceEmotionUpdate s now remo rscore r1 r2 r3).isAnalyzing = s.isAnalyzing
    ∧ (forceEmotionUpdate s now remo rscore r1 r2 r3).showInfo = s.showInfo
    ∧ (forceEmotionUpdate s now remo rscore r1 r2 r3).lastDetectionTime = s.lastDetectionTime
    ∧ (forceEmotionUpdate s now remo rscore r1 r2 r3).showEmotionPopup = s.showEmotionPopup
    ∧ (forceEmotionUpdate s now remo rscore r1 r2 r3).popupEmotion = s.popupEmotion
    ∧ (forceEmotionUpdate s now remo rscore r1 r2 r3).timerCount = s.timerCount
    ∧ (forceEmotionUpdate s now remo rscore r1 r2 r3).isProcessing = s.isProcessing
    ∧ (forceEmotionUpdate s now remo rscore r1 r2 r3).timerIntervalRef = s.timerIntervalRef
    ∧ (forceEmotionUpdate s now remo rscore r1 r2 r3).videoSrcObject = s.videoSrcObject
    ∧ (forceEmotionUpdate s now remo rscore r1 r2 r3).mediaStreamRef = s.mediaStreamRef
    ∧ (forceEmotionUpdate s now remo rscore r1 r2 r3).popupTimeoutRef = s.popupTimeoutRef
    ∧ (forceEmotionUpdate s now remo rscore r1 r2 r3).lastApiCallTimeRef = s.lastApiCallTimeRef
    ∧ (forceEmotionUpdate s now remo rscore r1 r2 r3).abortControllerRef = s.abortControllerRef
    ∧ (forceEmotionUpdate s now remo rscore r1 r2 r3).abortedTokens = s.abortedTokens := by
  have hg : ¬(s.isAnalyzing = false) := by simp [h3]
  have hnn : (0 : ℤ) ≤ ⌊remo * 7⌋ := Int.floor_nonneg.mpr (by positivity)
  have hband := floorMulBand remo 7 (by norm_num) he0 he1
  push_cast at hband
  have hlt7 : ⌊remo * 7⌋.toNat < 7 := by omega
  have huni : ∀ k : ℕ, k < 7 →
      (⌊remo * 7⌋.toNat = k ↔ ((k : ℚ) / 7 ≤ remo ∧ remo < ((k : ℚ) + 1) / 7)) := by
    intro k hk
    constructor
    · intro hkk
      have hfl : ⌊remo * 7⌋ = (k : ℤ) := by omega
      obtain ⟨haa, hbb⟩ := Int.floor_eq_iff.mp hfl
      push_cast at haa hbb
      constructor
      · rw [div_le_iff₀ (by norm_num : (0 : ℚ) < 7)]
        linarith
      · rw [lt_div_iff₀ (by norm_num : (0 : ℚ) < 7)]
        linarith
    · intro hx
      obtain ⟨hxa, hxb⟩ := hx
      rw [div_le_iff₀ (by norm_num : (0 : ℚ) < 7)] at hxa
      rw [lt_div_iff₀ (by norm_num : (0 : ℚ) < 7)] at hxb
      have hfl : ⌊remo * 7⌋ = (k : ℤ) := by
        rw [Int.floor_eq_iff]
        push_cast
        exact ⟨hxa, hxb⟩
      omega
  have hscore := fallbackScoreBand rscore hs0 hs1
  unfold forceEmotionUpdate
  rw [if_neg hg]
  refine ⟨?_, force_getD_mem _, hlt7, huni, ?_, hscore.1, hscore.2,
    ?_, ?_, ?_, ?_, ?_, ?_, ?_, ?_, ?_, ?_, ?_, ?_, ?_, ?_, ?_, ?_, ?_, ?_, ?_⟩ <;>
    simp [updateMetricsBasedOnEmotion]

/-- C7 witness: the forced-update theorem applied at a concrete analyzing
state with both draws equal to one half. -/
theorem forcedUpdateC7_witness :
    analyzingState.isAnalyzing = true ∧ (0 : ℚ) ≤ 1 / 2 ∧ (1 : ℚ) / 2 < 1
    ∧ ((forceEmotionUpdate analyzingState 2001 (1 / 2) (1 / 2) 0 0 0).currentEmotion
        = some (forceEmotions.getD (⌊(1 : ℚ) / 2 * 7⌋.toNat) emoNeutral)
      ∧ forceEmotions.getD (⌊(1 : ℚ) / 2 * 7⌋.toNat) emoNeutral ∈ forceEmotions
      ∧ ⌊(1 : ℚ) / 2 * 7⌋.toNat < 7
      ∧ (∀ k : ℕ, k < 7 →
          (⌊(1 : ℚ) / 2 * 7⌋.toNat = k ↔ ((k : ℚ) / 7 ≤ 1 / 2 ∧ (1 : ℚ) / 2 < ((k : ℚ) + 1) / 7)))
      ∧ (forceEmotionUpdate analyzingState 2001 (1 / 2) (1 / 2) 0 0 0).emotionHistory
          = appendEmotion analyzingState.emotionHistory
              ⟨forceEmotions.getD (⌊(1 : ℚ) / 2 * 7⌋.toNat) emoNeutral, 2001,
                7 / 10 + 1 / 2 * (3 / 10)⟩
      ∧ (7 : ℚ) / 10 ≤ 7 / 10 + 1 / 2 * (3 / 10) ∧ (7 : ℚ) / 10 + 1 / 2 * (3 / 10) < 1
      ∧ (forceEmotionUpdate analyzingState 2001 (1 / 2) (1 / 2) 0 0 0).stressLevel
          = stressFor (forceEmotions.getD (⌊(1 : ℚ) / 2 * 7⌋.toNat) emoNeutral) 0
      ∧ (forceEmotionUpdate analyzingState 2001 (1 / 2) (1 / 2) 0 0 0).engagementLevel
          = engagementFor (forceEmotions.getD (⌊(1 : ℚ) / 2 * 7⌋.toNat) emoNeutral) 0
      ∧ (forceEmotionUpdate analyzingState 2001 (1 / 2) (1 / 2) 0 0 0).focusLevel
          = focusFor (forceEmotions.getD (⌊(1 : ℚ) / 2 * 7⌋.toNat) emoNeutral) 0
      ∧ (forceEmotionUpdate analyzingState 2001 (1 / 2) (1 / 2) 0 0 0).cameraPermission
          = analyzingState.cameraPermission
      ∧ (forceEmotionUpdate analyzingState 2001 (1 / 2) (1 / 2) 0 0 0).micPermission
          = analyzingState.micPermission
      ∧ (forceEmotionUpdate analyzingState 2001 (1 / 2) (1 / 2) 0 0 0).isAnalyzing
          = analyzingState.isAnalyzing
      ∧ (forceEmotionUpdate analyzingState 2001 (1 / 2) (1 / 2) 0 0 0).showInfo
          = analyzingState.showInfo
      ∧ (forceEmotionUpdate analyzingState 2001 (1 / 2) (1 / 2) 0 0 0).lastDetectionTime
          = analyzingState.lastDetectionTime
      ∧ (forceEmotionUpdate analyzingState 2001 (1 / 2) (1 / 2) 0 0 0).showEmotionPopup
          = analyzingState.showEmotionPopup
      ∧ (forceEmotionUpdate analyzingState 2001 (1 / 2) (1 / 2) 0 0 0).popupEmotion
          = analyzingState.popupEmotion
      ∧ (forceEmotionUpdate analyzingState 2001 (1 / 2) (1 / 2) 0 0 0).timerCount
          = analyzingState.timerCount
      ∧ (forceEmotionUpdate analyzingState 2001 (1 / 2) (1 / 2) 0 0 0).isProcessing
          = analyzingState.isProcessing
      ∧ (forceEmotionUpdate analyzingState 2001 (1 / 2) (1 / 2) 0 0 0).timerIntervalRef
          = analyzingState.timerIntervalRef
      ∧ (forceEmotionUpdate analyzingState 2001 (1 / 2) (1 / 2) 0 0 0).videoSrcObject
          = analyzingState.videoSrcObject
      ∧ (forceEmotionUpdate analyzingState 2001 (1 / 2) (1 / 2) 0 0 0).mediaStreamRef
          = analyzingState.mediaStreamRef
      ∧ (forceEmotionUpdate analyzingState 2001 (1 / 2) (1 / 2) 0 0 0).popupTimeoutRef
          = analyzingState.popupTimeoutRef
      ∧ (forceEmotionUpdate analyzingState 2001 (1 / 2) (1 / 2) 0 0 0).lastApiCallTimeRef
          = analyzingState.lastApiCallTimeRef
      ∧ (forceEmotionUpdate analyzingState 2001 (1 / 2) (1 / 2) 0 0 0).abortControllerRef
          = analyzingState.abortControllerRef
      ∧ (forceEmotionUpdate analyzingState 2001 (1 / 2) (1 / 2) 0 0 0).abortedTokens
          = analyzingState.abortedTokens) :=
  ⟨rfl, by norm_num, by norm_num,
   forcedUpdateC7 analyzingState 2001 (1 / 2) (1 / 2) 0 0 0
     rfl (by norm_num) (by norm_num) (by norm_num) (by norm_num)⟩

/-! ### Session invariant (claim C8) -/

/-- stopAnalysis always ends with the analyzing flag off and the interval,
stream and controller references null. -/
theorem stopAnalysis_releases (env : DetectEnv) (s : HookState) :
    (stopAnalysis env s).1.isAnalyzing = false
    ∧ (stopAnalysis env s).1.timerIntervalRef = none
    ∧ (stopAnalysis env s).1.mediaStreamRef = none
    ∧ (stopAnalysis env s).1.abortControllerRef = none := by
  cases h : s.abortControllerRef <;> cases hv : env.hasVideo <;>
    simp [stopAnalysis, h, hv]

/-- startAnalysis either switches analysis on, or leaves the analyzing flag,
the interval handle and the controller reference exactly as they were. -/
theorem startAnalysis_machinery (env : DetectEnv) (s : HookState) (cam mic : Bool)
    (now sid iid : Nat) (m1 m2 m3 : ℚ) :
    ((startAnalysis env s cam mic now sid iid m1 m2 m3).1.isAnalyzing = true)
    ∨ ((startAnalysis env s cam mic now sid iid m1 m2 m3).1.isAnalyzing = s.isAnalyzing
        ∧ (startAnalysis env s cam mic now sid iid m1 m2 m3).1.timerIntervalRef = s.timerIntervalRef
        ∧ (startAnalysis env s cam mic now sid iid m1 m2 m3).1.abortControllerRef
            = s.abortControllerRef) := by
  unfold startAnalysis requestCameraPermission requestMicPermission
  cases hv : env.hasVideo <;> cases hc : cam <;> cases hm : mic <;>
    rcases hmp : s.micPermission with _ | b
  all_goals try cases b
  all_goals simp [hv, hc, hm, hmp, jsTruthy, updateMetricsBasedOnEmotion]
  all_goals (left; split <;> split <;> simp [updateMetricsBasedOnEmotion])

/-- processVideoFrame is either a strict no-op or runs with analysis on. -/
theorem processVideoFrame_machinery (env : DetectEnv) (s : HookState)
    (now tEvent : Nat) (apiResult : Except Unit EmotionResult)
    (rfall rscore r1 r2 r3 : ℚ) (ctrlId : Nat) :
    (processVideoFrame env s now tEvent apiResult rfall rscore r1 r2 r3 ctrlId).1 = s
    ∨ ((processVideoFrame env s now tEvent apiResult rfall rscore r1 r2 r3 ctrlId).1.isAnalyzing
        = true
      ∧ (processVideoFrame env s now tEvent apiResult rfall rscore r1 r2 r3 ctrlId).1.timerIntervalRef
        = s.timerIntervalRef) := by
  by_cases hg : env.hasVideo = false ∨ env.hasCanvas = false
      ∨ s.isAnalyzing = false ∨ s.isProcessing = true
  · left
    unfold processVideoFrame
    rw [if_pos hg]
  · by_cases hrate : (now : Int) - (s.lastApiCallTimeRef : Int) < 1000
    · left
      unfold processVideoFrame
      rw [if_neg hg, if_pos hrate]
    · right
      have hA : s.isAnalyzing = true := by
        push_neg at hg
        revert hg
        cases s.isAnalyzing <;> simp
      unfold processVideoFrame
      rw [if_neg hg, if_neg hrate]
      by_cases hctx : env.ctxOk = false
      · rw [if_pos hctx]
        simp [hA]
      · rw [if_neg hctx]
        cases apiResult with
        | ok res =>
            by_cases hp : res.emotion = emoStressed ∨ res.emotion = emoSad <;>
              simp [hp, hA, showEmotionalSupportPopup, updateMetricsBasedOnEmotion]
        | error e =>
            simp [hA, updateMetricsBasedOnEmotion]

/-- forceEmotionUpdate is either a strict no-op or runs with analysis on, and
never touches the interval handle or the controller reference. -/
theorem forceEmotionUpdate_machinery (s : HookState) (now : Nat)
    (remo rscore r1 r2 r3 : ℚ) :
    forceEmotionUpdate s now remo rscore r1 r2 r3 = s
    ∨ ((forceEmotionUpdate s now remo rscore r1 r2 r3).isAnalyzing = true
      ∧ (forceEmotionUpdate s now remo rscore r1 r2 r3).timerIntervalRef = s.timerIntervalRef
      ∧ (forceEmotionUpdate s now remo rscore r1 r2 r3).abortControllerRef
          = s.abortControllerRef) := by
  by_cases ha : s.isAnalyzing = false
  · left
    unfold forceEmotionUpdate
    rw [if_pos ha]
  · right
    have hA : s.isAnalyzing = true := by
      revert ha
      cases s.isAnalyzing <;> simp
    unfold forceEmotionUpdate
    rw [if_neg ha]
    simp [hA, updateMetricsBasedOnEmotion]

/-- The countdown tick changes only the timer count. -/
theorem updateTimer_frame (s : HookState) :
    (updateTimer s).isAnalyzing = s.isAnalyzing
    ∧ (updateTimer s).timerIntervalRef = s.timerIntervalRef
    ∧ (updateTimer s).abortControllerRef = s.abortControllerRef := by
  unfold updateTimer
  split <;> simp

/-- The popup auto-hide callback changes only the popup fields. -/
theorem firePopupTimeout_frame (s : HookState) (t : Nat) :
    (firePopupTimeout s t).isAnalyzing = s.isAnalyzing
    ∧ (firePopupTimeout s t).timerIntervalRef = s.timerIntervalRef
    ∧ (firePopupTimeout s t).abortControllerRef = s.abortControllerRef := by
  unfold firePopupTimeout
  split <;> first
    | (split <;> simp)
    | simp

/-- The states of the hook reachable from the initial render through the
operations the hook exposes: startAnalysis, stopAnalysis, the capture path,
the forced update, the countdown tick, the popup auto-hide callback, and the
two setters returned to the host component (setShowEmotionPopup, setShowInfo). -/
inductive Reachable : HookState → Prop where
  | init : Reachable initialState
  | start (s : HookState) (env : DetectEnv) (cam mic : Bool) (now sid iid : Nat)
      (m1 m2 m3 : ℚ) : Reachable s →
      Reachable (startAnalysis env s cam mic now sid iid m1 m2 m3).1
  | stop (s : HookState) (env : DetectEnv) : Reachable s →
      Reachable (stopAnalysis env s).1
  | frame (s : HookState) (env : DetectEnv) (now tEvent : Nat)
      (apiResult : Except Unit EmotionResult) (rfall rscore r1 r2 r3 : ℚ)
      (ctrlId : Nat) : Reachable s →
      Reachable (processVideoFrame env s now tEvent apiResult rfall rscore r1 r2 r3 ctrlId).1
  | forced (s : HookState) (now : Nat) (remo rscore r1 r2 r3 : ℚ) : Reachable s →
      Reachable (forceEmotionUpdate s now remo rscore r1 r2 r3)
  | tick (s : HookState) : Reachable s → Reachable (updateTimer s)
  | fire (s : HookState) (t : Nat) : Reachable s → Reachable (firePopupTimeout s t)
  | dismiss (s : HookState) (b : Bool) : Reachable s →
      Reachable { s with showEmotionPopup := b }
  | toggleInfo (s : HookState) (b : Bool) : Reachable s →
      Reachable { s with showInfo := b }

/-- The reachable state in which camera acquisition succeeded but microphone
acquisition failed during startAnalysis, from a fresh session. -/
def camOkMicFailState : HookState :=
  (startAnalysis envAll initialState true false 0 5 9 0 0 0).1

/-- C8 counterexample: after a start attempt whose camera acquisition succeeds
and whose microphone acquisition fails, the session is not analyzing yet the
camera stream acquired during the attempt is still held — the claimed
invariant fails in this reachable state. -/
theorem startMicFailC8_counterexample :
    Reachable camOkMicFailState
    ∧ camOkMicFailState.isAnalyzing = false
    ∧ camOkMicFailState.mediaStreamRef = some 5 := by
  refine ⟨?_, ?_, ?_⟩
  · exact Reachable.start initialState envAll true false 0 5 9 0 0 0 Reachable.init
  · decide
  · decide

/-- C8 (amended): in every reachable state with the analyzing flag off, the
tick timer is stopped and no classification request is in flight (controller
reference null).  The stream clause of the claim is dropped: the capture
stream can remain held with analysis off, as the counterexample state
exhibits. -/
theorem notAnalyzingReleasedC8 (s : HookState) (hr : Reachable s) :
    s.isAnalyzing = false →
    s.timerIntervalRef = none ∧ s.abortControllerRef = none := by
  induction hr with
  | init =>
      intro _
      exact ⟨rfl, rfl⟩
  | start s env cam mic now sid iid m1 m2 m3 hprev ih =>
      intro hoff
      rcases startAnalysis_machinery env s cam mic now sid iid m1 m2 m3 with hA | ⟨hA, hT, hC⟩
      · rw [hoff] at hA
        exact absurd hA (by simp)
      · rw [hA] at hoff
        obtain ⟨t1, t2⟩ := ih hoff
        exact ⟨hT.trans t1, hC.trans t2⟩
  | stop s env hprev ih =>
      intro _
      exact ⟨(stopAnalysis_releases env s).2.1, (stopAnalysis_releases env s).2.2.2⟩
  | frame s env now tEvent apiResult rfall rscore r1 r2 r3 ctrlId hprev ih =>
      intro hoff
      rcases processVideoFrame_machinery env s now tEvent apiResult rfall rscore r1 r2 r3 ctrlId
        with hEq | ⟨hA, _⟩
      · rw [hEq] at hoff ⊢
        exact ih hoff
      · rw [hoff] at hA
        exact absurd hA (by simp)
  | forced s now remo rscore r1 r2 r3 hprev ih =>
      intro hoff
      rcases forceEmotionUpdate_machinery s now remo rscore r1 r2 r3 with hEq | ⟨hA, _, _⟩
      · rw [hEq] at hoff ⊢
        exact ih hoff
      · rw [hoff] at hA
        exact absurd hA (by simp)
  | tick s hprev ih =>
      intro hoff
      obtain ⟨hA, hT, hC⟩ := updateTimer_frame s
      rw [hA] at hoff
      obtain ⟨t1, t2⟩ := ih hoff
      exact ⟨hT.trans t1, hC.trans t2⟩
  | fire s t hprev ih =>
      intro hoff
      obtain ⟨hA, hT, hC⟩ := firePopupTimeout_frame s t
      rw [hA] at hoff
      obtain ⟨t1, t2⟩ := ih hoff
      exact ⟨hT.trans t1, hC.trans t2⟩
  | dismiss s b hprev ih =>
      intro hoff
      simp only [] at hoff
      exact ih hoff
  | toggleInfo s b hprev ih =>
      intro hoff
      simp only [] at hoff
      exact ih hoff

/-- C8 witness: the amended invariant applied to the initial state, which is
reachable and not analyzing. -/
theorem notAnalyzingReleasedC8_witness :
    initialState.isAnalyzing = false
    ∧ initialState.timerIntervalRef = none ∧ initialState.abortControllerRef = none :=
  ⟨rfl, notAnalyzingReleasedC8 initialState Reachable.init rfl⟩
